import Mathlib

/-!
Verification of the video-background controller of the saint.works repository.

The development shallowly embeds the relevant parts of
`src/lib/constants.ts` and the documented copy of the video-tiled-background
component (codec selection, orientation selection, readiness gate, render
surface controller with its fallback path).

Modelling conventions:
* JavaScript strings are lists of characters (`JStr`).
* JavaScript numbers that only ever hold real arithmetic values
  (viewport sizes, scales) are rationals (`ℚ`).
* JavaScript truthiness is made explicit (`jsOr`, `optTruthy`, the
  `≠ 0` / `≠ []` tests translated from the source's `||` and `if (x)` tests).
* DOM / WebGL state touched by the controller is carried in explicit
  records (`Video`, `Ctrl`, `Env`, `World`); GPU calls are logged in an
  explicit effect list (`GLCall`).
* The `async` control flow of `initialize`/`selectVideo` is split at its
  single suspension point (awaiting video readiness) into a first phase
  returning a `SelectOutcome` and an explicit resumption function.
-/

namespace SaintWorks

/-- JavaScript strings, modelled as lists of characters. -/
abbrev JStr := List Char

/-- `s.startsWith("/")`. -/
def startsWithSlash : JStr → Bool
  | [] => false
  | c :: _ => c = '/'

/-- whether a string ends with the character `/`. -/
def endsWithSlash (s : JStr) : Bool := s.getLast? = some '/'

/-- `getAssetPath` from `src/lib/constants.ts`, parametrised by the
`BASE_PATH` constant (empty in dev, a sub-path such as `/saint.works` in
production):

```js
const cleanPath = path.startsWith("/") ? path.slice(1) : path;
if (!BASE_PATH) { return `/${cleanPath}`; }
return `${BASE_PATH}/${cleanPath}`;
```
-/
def getAssetPath (basePath : JStr) (path : JStr) : JStr :=
  let cleanPath := if startsWithSlash path then path.tail else path
  if basePath = [] then '/' :: cleanPath
  else basePath ++ '/' :: cleanPath

/-! ## Codec / format selection (`setVideoSources`) -/

/-- The capability record produced by `detectVideoCodecSupport`. -/
structure CodecSupport where
  supportsAV1 : Bool
  supportsVP9 : Bool
  supportsH264 : Bool
deriving DecidableEq

/-- The `VideoFormats` configuration type from `src/lib/constants.ts`:
`av1` and `vp9` are optional, `h264` is required by the TypeScript type. -/
structure VideoFormats where
  av1 : Option JStr
  vp9 : Option JStr
  h264 : JStr
deriving DecidableEq

/-- JavaScript truthiness of an optional string field
(`undefined` and the empty string are falsy). -/
def optTruthy : Option JStr → Bool
  | none => false
  | some s => s ≠ []

/-- The MIME `type` attribute written on each generated `<source>` element. -/
inductive Mime
  | av1
  | vp9
  | h264
deriving DecidableEq

/-- A generated `<source>` element: resolved `src` and MIME `type`. -/
structure SourceEl where
  src : JStr
  type : Mime
deriving DecidableEq

/-- `setVideoSources` from the video-background component, as the list of
`<source>` children appended to the video element (the element's previous
children having been cleared):

```js
if (codecSupport.supportsAV1 && formats.av1) { ...append av1 source... }
if (codecSupport.supportsVP9 && formats.vp9) { ...append vp9 source... }
if (formats.h264) { ...append h264 source... }
```
-/
def setVideoSources (basePath : JStr) (support : CodecSupport)
    (formats : VideoFormats) : List SourceEl :=
  (if support.supportsAV1 && optTruthy formats.av1 then
    [⟨getAssetPath basePath (formats.av1.getD []), Mime.av1⟩] else []) ++
  (if support.supportsVP9 && optTruthy formats.vp9 then
    [⟨getAssetPath basePath (formats.vp9.getD []), Mime.vp9⟩] else []) ++
  (if formats.h264 ≠ [] then
    [⟨getAssetPath basePath formats.h264, Mime.h264⟩] else [])

/-! ## Orientation selection -/

/-- JavaScript `x || d` on numbers whose only falsy value is `0`
(the source uses it as `window.innerWidth / window.innerHeight || 1` and
`window.devicePixelRatio || 1`). -/
def jsOr (x d : ℚ) : ℚ := if x = 0 then d else x

/-- The orientation decision computed identically in `selectVideo` and
`enableFallbackVideo`:

```js
const viewportRatio = window.innerWidth / window.innerHeight || 1;
const useLandscape = viewportRatio >= 1;
```
-/
def useLandscape (w h : ℚ) : Bool := 1 ≤ jsOr (w / h) 1

/-- `Math.round`, on the rationals the controller feeds it (non-negative
canvas sizes): round half up. -/
def jsRound (x : ℚ) : ℚ := (⌊x + 1/2⌋ : ℤ)

/-! ## Display-size (tiling uniform) computation -/

/-- The display-video-size computation of `updateUniforms`:

```js
const videoWidth = this.activeVideo.videoWidth || 1;
const videoHeight = this.activeVideo.videoHeight || 1;
const widthScale = canvasSize[0] / videoWidth;      // (unused local `scale`)
const heightScale = canvasSize[1] / videoHeight;
const paddingPercent = 0.05;
const paddingWidth = canvasSize[0] * paddingPercent * 2;
const paddingHeight = canvasSize[1] * paddingPercent * 2;
const effectiveCanvasSize = [canvasSize[0] - paddingWidth, canvasSize[1] - paddingHeight];
const effectiveWidthScale = effectiveCanvasSize[0] / videoWidth;
const effectiveHeightScale = effectiveCanvasSize[1] / videoHeight;
const effectiveScale = Math.min(effectiveWidthScale, effectiveHeightScale);
const displayVideoSize = [videoWidth * effectiveScale, videoHeight * effectiveScale];
```

(The source's dead local `scale = Math.min(widthScale, heightScale)` is
never read and is omitted.) -/
def displayVideoSizeCalc (canvasW canvasH vW vH : ℚ) : ℚ × ℚ :=
  let videoWidth := jsOr vW 1
  let videoHeight := jsOr vH 1
  let paddingPercent : ℚ := 0.05
  let paddingWidth := canvasW * paddingPercent * 2
  let paddingHeight := canvasH * paddingPercent * 2
  let effectiveW := canvasW - paddingWidth
  let effectiveH := canvasH - paddingHeight
  let effectiveScale := min (effectiveW / videoWidth) (effectiveH / videoHeight)
  (videoWidth * effectiveScale, videoHeight * effectiveScale)

/-! ## Controller state -/

/-- The `preload` attribute values the controller writes. -/
inductive Preload
  | auto
  | metadata
deriving DecidableEq

/-- The observable state of one `HTMLVideoElement` as read and written by the
controller. `loadCalls` counts `load()` instructions, `playAttempts` counts
`play()` calls, `fallbackClass` is membership of the `bg-video-fallback`
class, `loadListener` records whether the readiness-gate load listeners
(`loadeddata` / `loadedmetadata` / `canplay`) are currently attached,
`hasSourceChildren` / `srcAttr` feed the gate's
`video.querySelectorAll("source").length > 0 || video.src` test. -/
structure Video where
  paused : Bool
  ended : Bool
  readyState : Nat
  videoWidth : Nat
  videoHeight : Nat
  preload : Preload
  loop : Bool
  fallbackClass : Bool
  hasSourceChildren : Bool
  srcAttr : Bool
  loadCalls : Nat
  playAttempts : Nat
  loadListener : Bool
deriving DecidableEq

/-- Which of the two managed video elements a controller reference points at.
The two elements are distinct DOM objects, so JavaScript reference equality
between them is equality of slots. -/
inductive Slot
  | landscape
  | portrait
deriving DecidableEq

/-- The other video slot. -/
def Slot.other : Slot → Slot
  | .landscape => .portrait
  | .portrait => .landscape

/-- GPU (WebGL) calls issued by the controller, logged as effects.
`setUniforms` folds the four `uniform*` writes of `updateUniforms` into one
logged call carrying the two size uniforms. -/
inductive GLCall
  | viewport
  | useProgram
  | clearColor
  | clear
  | activeTexture
  | bindTexture
  | texImage2D
  | setUniforms (canvasSize displayVideoSize : ℚ × ℚ)
  | bindBuffer
  | vertexAttribPointer
  | drawArrays
  | deleteTexture
  | deleteBuffer
  | deleteProgram
deriving DecidableEq

/-- Host environment: viewport geometry, layout size of the canvas,
device pixel ratio, the autoplay policy (whether `play()` resolves),
the outcome of shader compilation/linking (`glInitOk` models the host's
verdict inside `createProgram`: compile, link and attribute lookup), and
the `requestAnimationFrame` scheduler (fresh-id counter plus the ids of
currently pending, not-yet-fired callbacks). -/
structure Env where
  innerWidth : ℚ
  innerHeight : ℚ
  devicePixelRatio : ℚ
  clientWidth : ℚ
  clientHeight : ℚ
  autoplayAllowed : Bool
  glInitOk : Bool
  nextRafId : Nat
  pendingRaf : List Nat
deriving DecidableEq

/-- The mutable instance fields of `VideoTiledBackgroundController`.
WebGL object references (`program`, `positionBuffer`, `texture`) and the
located shader locations are tracked as presence flags; `gl` is whether
`this.gl` is non-null; `canvasWidth`/`canvasHeight` are the canvas's
drawing-buffer size written by `resize`. -/
structure Ctrl where
  gl : Bool
  program : Bool
  positionBuffer : Bool
  texture : Bool
  positionLocation : Bool
  uniformsLocated : Bool
  activeVideo : Option Slot
  needsTextureUpload : Bool
  videoMetadataLoaded : Bool
  animationHandle : Option Nat
  hasUserInteracted : Bool
  resizeListener : Bool
  orientListener : Bool
  interactionListeners : Bool
  canvasWidth : ℚ
  canvasHeight : ℚ
deriving DecidableEq

/-- The whole mutable world: the two (possibly absent) video elements, the
controller instance and the host environment. -/
structure World where
  landscape : Option Video
  portrait : Option Video
  ctrl : Ctrl
  env : Env
deriving DecidableEq

/-- Read the video element in a slot. -/
def World.videoAt (w : World) : Slot → Option Video
  | .landscape => w.landscape
  | .portrait => w.portrait

/-- Mutate the video element in a slot, if present (the source always guards
element references with `if (video)`-style null checks before mutating). -/
def World.mapVideo (w : World) (s : Slot) (f : Video → Video) : World :=
  match s with
  | .landscape => { w with landscape := w.landscape.map f }
  | .portrait => { w with portrait := w.portrait.map f }

/-- Mutate the video referenced by an optional slot (no-op on `none`,
matching the source's `if (!video) return` guards). -/
def World.mapVideoOpt (w : World) : Option Slot → (Video → Video) → World
  | none, _ => w
  | some s, f => w.mapVideo s f

/-- Replace the video element in a slot, if present. -/
def World.setVideo (w : World) (s : Slot) (v : Video) : World :=
  w.mapVideo s (fun _ => v)

/-! ## Controller operations -/

/-- `pauseVideo`'s effect on an element:
`if (!video || video.paused) return; video.pause();`. -/
def pauseV (v : Video) : Video :=
  if v.paused then v else { v with paused := true }

/-- `playVideo`'s effect on an element: sets `loop`, attempts `play()`.
A resolved attempt un-pauses the element; a rejected one (autoplay policy)
is caught and leaves it paused. -/
def playV (autoplayAllowed : Bool) (v : Video) : Video :=
  let v := { v with loop := true, playAttempts := v.playAttempts + 1 }
  if autoplayAllowed then { v with paused := false } else v

/-- The orientation decision on the current environment. -/
def Env.useLandscapeNow (e : Env) : Bool := useLandscape e.innerWidth e.innerHeight

/-- `enableFallbackVideo`: pick primary/secondary by the orientation
decision; show and play-attempt the primary, hide and pause the secondary.
Pure DOM work, no GPU calls. -/
def enableFallbackVideo (w : World) : World :=
  let useL := w.env.useLandscapeNow
  let primary : Slot := if useL then .landscape else .portrait
  let secondary : Slot := if useL then .portrait else .landscape
  let w := w.mapVideo primary (fun v => playV w.env.autoplayAllowed { v with fallbackClass := true })
  w.mapVideo secondary (fun v => pauseV { v with fallbackClass := false })

/-- Result of the readiness gate `ensureVideoReady` up to its suspension
point: updated controller and video, whether a `load()` instruction was
issued, and whether the promise resolved synchronously (`resolvedNow =
false` means it is pending a load event). -/
structure ReadyResult where
  ctrl : Ctrl
  video : Video
  issuedLoad : Bool
  resolvedNow : Bool
deriving DecidableEq

/-- `video.querySelectorAll("source").length > 0 || video.src`. -/
def hasSources (v : Video) : Bool := v.hasSourceChildren || v.srcAttr

/-- `ensureVideoReady`:

```js
if (video.readyState >= 2 && video.videoWidth && video.videoHeight) {
  this.videoMetadataLoaded = true; this.needsTextureUpload = true; resolve(); return;
}
const hasSources = video.querySelectorAll("source").length > 0 || video.src;
if (!hasSources) { console.warn(...); resolve(); return; }
video.addEventListener("loadeddata"/"loadedmetadata"/"canplay", onLoaded, { once: true });
video.load();
```
-/
def ensureVideoReady (c : Ctrl) (v : Video) : ReadyResult :=
  if 2 ≤ v.readyState ∧ v.videoWidth ≠ 0 ∧ v.videoHeight ≠ 0 then
    ⟨{ c with videoMetadataLoaded := true, needsTextureUpload := true }, v, false, true⟩
  else if ¬ hasSources v then
    ⟨c, v, false, true⟩
  else
    ⟨c, { v with loadListener := true, loadCalls := v.loadCalls + 1 }, true, false⟩

/-- `this.animationHandle = requestAnimationFrame(this.renderFrame)`:
a fresh callback id is handed out and becomes pending. -/
def scheduleFrame (w : World) : World :=
  { w with
    ctrl := { w.ctrl with animationHandle := some w.env.nextRafId },
    env := { w.env with
      nextRafId := w.env.nextRafId + 1,
      pendingRaf := w.env.pendingRaf ++ [w.env.nextRafId] } }

/-- `updateUniforms`: guarded by
`if (!this.gl || !this.program || !this.activeVideo || !this.uniforms.canvasSize) return;`
then `gl.useProgram` and the four uniform writes, the display size being
`displayVideoSizeCalc` of the canvas drawing-buffer size and the active
video's intrinsic size. -/
def updateUniforms (w : World) : World × List GLCall :=
  match w.ctrl.activeVideo.bind w.videoAt with
  | none => (w, [])
  | some v =>
    if w.ctrl.gl && w.ctrl.program && w.ctrl.uniformsLocated then
      let cs : ℚ × ℚ := (w.ctrl.canvasWidth, w.ctrl.canvasHeight)
      let dvs := displayVideoSizeCalc cs.1 cs.2 (v.videoWidth : ℚ) (v.videoHeight : ℚ)
      (w, [.useProgram, .setUniforms cs dvs])
    else (w, [])

/-- `resize(force)`: no-op without a context; otherwise recompute the
drawing-buffer size from layout size and device pixel ratio, write it when
forced or changed, set the viewport and update the uniforms. -/
def resize (w : World) (force : Bool) : World × List GLCall :=
  if w.ctrl.gl then
    let dpr := jsOr w.env.devicePixelRatio 1
    let width := jsRound (w.env.clientWidth * dpr)
    let height := jsRound (w.env.clientHeight * dpr)
    let c := w.ctrl
    let c :=
      if force || c.canvasWidth ≠ width || c.canvasHeight ≠ height then
        { c with canvasWidth := width, canvasHeight := height }
      else c
    let w := { w with ctrl := c }
    let (w, effs) := updateUniforms w
    (w, GLCall.viewport :: effs)
  else (w, [])

/-- `videoHasNewFrame` (documented version):
`(!paused && !ended) || (this.videoMetadataLoaded && readyState >= 2)`. -/
def videoHasNewFrame (c : Ctrl) : Option Video → Bool
  | none => false
  | some v => (!v.paused && !v.ended) || (c.videoMetadataLoaded && 2 ≤ v.readyState)

/-- One iteration of the render loop (`renderFrame`). Without context,
program or active video it only reschedules itself. Otherwise it clears,
binds the texture, uploads the current frame when the dirty flag is set or
`videoHasNewFrame()` — and the video has positive intrinsic dimensions —
then updates the uniforms, rebinds the position buffer and draws, and
reschedules itself. -/
def renderFrameStep (w : World) : World × List GLCall :=
  match w.ctrl.gl && w.ctrl.program, w.ctrl.activeVideo.bind w.videoAt with
  | true, some v =>
    let pre : List GLCall := [.useProgram, .clearColor, .clear, .activeTexture, .bindTexture]
    let (w, upl) :=
      if w.ctrl.needsTextureUpload || videoHasNewFrame w.ctrl (some v) then
        if 0 < v.videoWidth ∧ 0 < v.videoHeight then
          ({ w with ctrl := { w.ctrl with needsTextureUpload := false } }, [GLCall.texImage2D])
        else (w, [])
      else (w, [])
    let (w, uni) := updateUniforms w
    let bindB : List GLCall :=
      if w.ctrl.positionLocation && w.ctrl.positionBuffer then
        [.bindBuffer, .vertexAttribPointer]
      else []
    (scheduleFrame w, pre ++ upl ++ uni ++ bindB ++ [.drawArrays])
  | _, _ => (scheduleFrame w, [])

/-- Outcome of running an `async` entry point up to its first suspension
point: either it completed synchronously, or it is suspended awaiting the
readiness (load) event of the video in `target`. Both carry the world and
the GPU calls issued so far. -/
inductive SelectOutcome
  | done (w : World) (effs : List GLCall)
  | awaitReady (w : World) (effs : List GLCall) (target : Slot)
deriving DecidableEq

/-- The world carried by a `SelectOutcome`. -/
def SelectOutcome.world : SelectOutcome → World
  | .done w _ => w
  | .awaitReady w _ _ => w

/-- The effects carried by a `SelectOutcome`. -/
def SelectOutcome.effs : SelectOutcome → List GLCall
  | .done _ e => e
  | .awaitReady _ e _ => e

/-- Whether the outcome is suspended awaiting readiness. -/
def SelectOutcome.isAwaitReady : SelectOutcome → Bool
  | .done _ _ => false
  | .awaitReady _ _ _ => true

/-- Continuation of `selectVideo` after `await this.ensureVideoReady(target)`
resolved: attempt playback (awaited or fire-and-forget, same observable
effect), remove the fallback class from every managed element, mark the
texture dirty, and force a resize/uniform recomputation. -/
def selectVideoAfterReady (w : World) (target : Slot) : World × List GLCall :=
  let w := w.mapVideo target (playV w.env.autoplayAllowed)
  let w := w.mapVideo target (fun v => { v with fallbackClass := false })
  let w := w.mapVideo target.other (fun v => { v with fallbackClass := false })
  let w := { w with ctrl := { w.ctrl with needsTextureUpload := true } }
  resize w true

/-- `selectVideo` up to its suspension point:

```js
const { landscape, portrait } = this.videos;
if (!landscape && !portrait) return;
const viewportRatio = window.innerWidth / window.innerHeight || 1;
const useLandscape = viewportRatio >= 1;
const target = useLandscape ? landscape : portrait;
const inactive = useLandscape ? portrait : landscape;
if (!target) { this.enableFallbackVideo(); return; }
if (this.activeVideo === target) return;
this.pauseVideo(this.activeVideo);
this.videoMetadataLoaded = false;
if (target) { target.preload = "auto"; target.load(); }
if (inactive) { inactive.preload = "metadata"; }
this.activeVideo = target;
await this.ensureVideoReady(target);
...  // continued in selectVideoAfterReady
```
-/
def selectVideoPhase1 (w : World) : SelectOutcome :=
  if w.landscape = none ∧ w.portrait = none then .done w []
  else
    let useL := w.env.useLandscapeNow
    let target : Slot := if useL then .landscape else .portrait
    match w.videoAt target with
    | none => .done (enableFallbackVideo w) []
    | some _ =>
      if w.ctrl.activeVideo = some target then .done w []
      else
        let w := w.mapVideoOpt w.ctrl.activeVideo pauseV
        let w := { w with ctrl := { w.ctrl with videoMetadataLoaded := false } }
        let w := w.mapVideo target
          (fun v => { v with preload := .auto, loadCalls := v.loadCalls + 1 })
        let w := w.mapVideo target.other (fun v => { v with preload := .metadata })
        let w := { w with ctrl := { w.ctrl with activeVideo := some target } }
        match w.videoAt target with
        | none => .done w []
        | some tv =>
          let r := ensureVideoReady w.ctrl tv
          let w := ({ w with ctrl := r.ctrl }).setVideo target r.video
          if r.resolvedNow then
            let (w, effs) := selectVideoAfterReady w target
            .done w effs
          else .awaitReady w [] target

/-- `attachEvents`: register the resize listener, the orientation
media-query listener and the one-shot user-interaction listeners. -/
def attachEvents (w : World) : World :=
  { w with ctrl := { w.ctrl with
      resizeListener := true, orientListener := true, interactionListeners := true } }

/-- `createProgram`: compile both shaders, link, locate uniforms and the
position attribute. Any host-reported failure (compile error, link error,
missing attribute) throws before `this.program` is assigned; `env.glInitOk`
is the host's verdict and `none` is the thrown exception. -/
def createProgram (w : World) : Option World :=
  if w.ctrl.gl then
    if w.env.glInitOk then
      some { w with ctrl := { w.ctrl with
        program := true, uniformsLocated := true, positionLocation := true } }
    else none
  else some w

/-- `createBuffers`: allocate and fill the quad vertex buffer. -/
def createBuffers (w : World) : World :=
  if w.ctrl.gl then { w with ctrl := { w.ctrl with positionBuffer := true } } else w

/-- `createTexture`: allocate the frame texture. -/
def createTexture (w : World) : World :=
  if w.ctrl.gl then { w with ctrl := { w.ctrl with texture := true } } else w

/-- `disposeGL`: release texture, buffer and program if held
(`this.gl` itself is kept). -/
def disposeGLOp (w : World) : World × List GLCall :=
  if w.ctrl.gl then
    let e1 : List GLCall := if w.ctrl.texture then [.deleteTexture] else []
    let e2 : List GLCall := if w.ctrl.positionBuffer then [.deleteBuffer] else []
    let e3 : List GLCall := if w.ctrl.program then [.deleteProgram] else []
    ({ w with ctrl := { w.ctrl with texture := false, positionBuffer := false, program := false } },
      e1 ++ e2 ++ e3)
  else (w, [])

/-- `initGL` up to the suspension point of its `await this.selectVideo()`:
`createProgram(); createBuffers(); createTexture(); await selectVideo();
resize(true); renderFrame();` — `none` is the exception thrown out of
`createProgram`. -/
def initGLPhase1 (w : World) : Option SelectOutcome :=
  match createProgram w with
  | none => none
  | some w =>
    let w := createBuffers w
    let w := createTexture w
    match selectVideoPhase1 w with
    | .done w e1 =>
      let (w, e2) := resize w true
      let (w, e3) := renderFrameStep w
      some (.done w (e1 ++ e2 ++ e3))
    | .awaitReady w e t => some (.awaitReady w e t)

/-- `initialize` up to its first suspension point: attach events; without a
context, warn and enable the fallback video; otherwise run `initGL`,
and on a thrown initialization error release GL resources, null the
context and enable the fallback video. -/
def initController (w : World) : SelectOutcome :=
  let w := attachEvents w
  if w.ctrl.gl then
    match initGLPhase1 w with
    | some o => o
    | none =>
      let (w, effs) := disposeGLOp w
      let w := { w with ctrl := { w.ctrl with gl := false } }
      .done (enableFallbackVideo w) effs
  else .done (enableFallbackVideo w) []

/-- Resumption of a suspended initialization (`initialize` returned
`awaitReady`): the load event fires on the awaited video, the registered
`onLoaded` handler checks the intrinsic dimensions, detaches the listeners,
records metadata as loaded, marks the texture dirty and resolves; the
suspended `selectVideo` then finishes (`selectVideoAfterReady`) and the
suspended `initGL` runs its tail `this.resize(true); this.renderFrame();`. -/
def initResumeAfterReady (w : World) (target : Slot) : World × List GLCall :=
  match w.videoAt target with
  | none => (w, [])
  | some v =>
    if v.videoWidth ≠ 0 ∧ v.videoHeight ≠ 0 then
      let w := w.setVideo target { v with loadListener := false }
      let w := { w with ctrl := { w.ctrl with
        videoMetadataLoaded := true, needsTextureUpload := true } }
      let (w, e1) := selectVideoAfterReady w target
      let (w, e2) := resize w true
      let (w, e3) := renderFrameStep w
      (w, e1 ++ e2 ++ e3)
    else (w, [])

/-- `dispose`: cancel the pending animation-frame callback if any, detach
the resize/orientation/interaction listeners, release GL resources and
pause the active video. -/
def dispose (w : World) : World × List GLCall :=
  let w :=
    match w.ctrl.animationHandle with
    | some h =>
      { w with
        ctrl := { w.ctrl with animationHandle := none },
        env := { w.env with pendingRaf := w.env.pendingRaf.filter (· ≠ h) } }
    | none => w
  let w := { w with ctrl := { w.ctrl with
    resizeListener := false, orientListener := false, interactionListeners := false } }
  let (w, effs) := disposeGLOp w
  (w.mapVideoOpt w.ctrl.activeVideo pauseV, effs)

/-- The `handleResize` closure installed by the constructor:
with a context, resize and re-run video selection (fire-and-forget);
without one, re-apply the fallback presentation. -/
def handleResizeStep (w : World) : World × List GLCall :=
  if w.ctrl.gl then
    let (w, e1) := resize w false
    match selectVideoPhase1 w with
    | .done w e2 => (w, e1 ++ e2)
    | .awaitReady w e2 _ => (w, e1 ++ e2)
  else (enableFallbackVideo w, [])

/-- The `handleOrientation` closure installed by the constructor. -/
def handleOrientationStep (w : World) : World × List GLCall :=
  if w.ctrl.gl then
    match selectVideoPhase1 w with
    | .done w e => (w, e)
    | .awaitReady w e _ => (w, e)
  else (enableFallbackVideo w, [])

/-! ## Concrete states used as test fixtures -/

/-- A ready landscape clip as seen once loading finished. -/
def readyClip : Video :=
  { paused := true, ended := false, readyState := 2, videoWidth := 640, videoHeight := 360,
    preload := .auto, loop := true, fallbackClass := false, hasSourceChildren := true,
    srcAttr := false, loadCalls := 1, playAttempts := 1, loadListener := false }

/-- A running shader-mode world whose active media is `readyClip`, static
(paused, not ended) with a clear dirty flag and loaded metadata. -/
def staticWorld : World :=
  { landscape := some readyClip,
    portrait := none,
    ctrl :=
      { gl := true, program := true, positionBuffer := true, texture := true,
        positionLocation := true, uniformsLocated := true, activeVideo := some .landscape,
        needsTextureUpload := false, videoMetadataLoaded := true, animationHandle := some 7,
        hasUserInteracted := true, resizeListener := true, orientListener := true,
        interactionListeners := false, canvasWidth := 1920, canvasHeight := 1080 },
    env :=
      { innerWidth := 1920, innerHeight := 1080, devicePixelRatio := 1,
        clientWidth := 1920, clientHeight := 1080, autoplayAllowed := true, glInitOk := true,
        nextRafId := 8, pendingRaf := [7] } }

/-- A video element that has not loaded yet (sources attached, metadata not
yet arrived). -/
def unreadyVideo : Video :=
  { paused := true, ended := false, readyState := 0, videoWidth := 0, videoHeight := 0,
    preload := .metadata, loop := true, fallbackClass := false, hasSourceChildren := true,
    srcAttr := false, loadCalls := 0, playAttempts := 0, loadListener := false }

/-- Mount-time environment: landscape desktop viewport, healthy WebGL,
autoplay blocked until a user gesture, no callback pending. -/
def mountEnv : Env :=
  { innerWidth := 1920, innerHeight := 1080, devicePixelRatio := 1,
    clientWidth := 1920, clientHeight := 1080, autoplayAllowed := false, glInitOk := true,
    nextRafId := 0, pendingRaf := [] }

/-- The controller right after the constructor ran with a healthy context:
every field at its declared initial value, `gl` non-null. -/
def freshCtrl : Ctrl :=
  { gl := true, program := false, positionBuffer := false, texture := false,
    positionLocation := false, uniformsLocated := false, activeVideo := none,
    needsTextureUpload := false, videoMetadataLoaded := false, animationHandle := none,
    hasUserInteracted := false, resizeListener := false, orientListener := false,
    interactionListeners := false, canvasWidth := 0, canvasHeight := 0 }

/-- The world at mount time: a not-yet-loaded landscape element, no portrait
variant, fresh controller. -/
def mountWorld : World :=
  { landscape := some unreadyVideo, portrait := none, ctrl := freshCtrl, env := mountEnv }

/-- The media load completing: the host delivers the clip's intrinsic
dimensions and readiness level, firing the registered load listeners. -/
def deliverMetadata (v : Video) : Video :=
  { v with readyState := 2, videoWidth := 1920, videoHeight := 1080 }

/-- A world in shader mode whose orientation-selected target is already the
active element. -/
def settledWorld : World :=
  { landscape := some { readyClip with paused := false },
    portrait := some unreadyVideo,
    ctrl :=
      { gl := true, program := true, positionBuffer := true, texture := true,
        positionLocation := true, uniformsLocated := true, activeVideo := some .landscape,
        needsTextureUpload := false, videoMetadataLoaded := true, animationHandle := some 3,
        hasUserInteracted := true, resizeListener := true, orientListener := true,
        interactionListeners := false, canvasWidth := 800, canvasHeight := 600 },
    env :=
      { innerWidth := 800, innerHeight := 600, devicePixelRatio := 1,
        clientWidth := 800, clientHeight := 600, autoplayAllowed := true, glInitOk := true,
        nextRafId := 4, pendingRaf := [3] } }

/-- A world whose context acquisition returned null (`gl` is `none`). -/
def noGLWorld : World :=
  { landscape := some unreadyVideo,
    portrait := some { unreadyVideo with paused := false },
    ctrl := { freshCtrl with gl := false },
    env := { mountEnv with autoplayAllowed := true } }

/-- A concrete controller state for exercising the readiness gate. -/
def gateCtrl : Ctrl :=
  { freshCtrl with activeVideo := some .landscape }

/-! # Theorems

First a few facts about the state plumbing, then one theorem per claim. -/

@[simp] theorem videoAt_mapVideo_same (w : World) (s : Slot) (f : Video → Video) :
    (w.mapVideo s f).videoAt s = (w.videoAt s).map f := by
  cases s <;> simp [World.mapVideo, World.videoAt]

@[simp] theorem videoAt_mapVideo_other (w : World) (s t : Slot) (f : Video → Video)
    (h : s ≠ t) : (w.mapVideo s f).videoAt t = w.videoAt t := by
  cases s <;> cases t <;> simp_all [World.mapVideo, World.videoAt]

@[simp] theorem ctrl_mapVideo (w : World) (s : Slot) (f : Video → Video) :
    (w.mapVideo s f).ctrl = w.ctrl := by
  cases s <;> simp [World.mapVideo]

@[simp] theorem env_mapVideo (w : World) (s : Slot) (f : Video → Video) :
    (w.mapVideo s f).env = w.env := by
  cases s <;> simp [World.mapVideo]

@[simp] theorem pauseV_paused (v : Video) : (pauseV v).paused = true := by
  unfold pauseV; split <;> simp_all

@[simp] theorem pauseV_fallbackClass (v : Video) : (pauseV v).fallbackClass = v.fallbackClass := by
  unfold pauseV; split <;> rfl

@[simp] theorem playV_playAttempts (b : Bool) (v : Video) :
    (playV b v).playAttempts = v.playAttempts + 1 := by
  cases b <;> rfl

@[simp] theorem playV_fallbackClass (b : Bool) (v : Video) :
    (playV b v).fallbackClass = v.fallbackClass := by
  cases b <;> rfl

/-- C10: for every path `p` that does not begin with a slash,
`getAssetPath p` equals `getAssetPath ("/" ++ p)`; the result begins with a
slash and has no doubled slash at the join point — the result is literally
`basePath ++ "/" ++ p` where the base path does not end in a slash and `p`
does not start with one — whether `BASE_PATH` is empty or a sub-path prefix
(starts with a slash, does not end with one). -/
theorem getAssetPath_slash_normalization (basePath p : JStr)
    (hp : startsWithSlash p = false)
    (hb : basePath = [] ∨ (startsWithSlash basePath = true ∧ endsWithSlash basePath = false)) :
    getAssetPath basePath p = getAssetPath basePath ('/' :: p) ∧
    startsWithSlash (getAssetPath basePath p) = true ∧
    getAssetPath basePath p = basePath ++ '/' :: p ∧
    basePath.getLast? ≠ some '/' ∧ p.head? ≠ some '/' := by
  have hhead : p.head? ≠ some '/' := by
    cases p with
    | nil => simp
    | cons c cs =>
      simp only [startsWithSlash, decide_eq_false_iff_not] at hp
      simpa using hp
  have hsw : startsWithSlash ('/' :: p) = true := by simp [startsWithSlash]
  have hclean : getAssetPath basePath p = getAssetPath basePath ('/' :: p) := by
    simp [getAssetPath, hp, hsw]
  rcases hb with hb | ⟨hb1, hb2⟩
  · subst hb
    refine ⟨hclean, ?_, ?_, by simp, hhead⟩
    · simp [getAssetPath, hp, startsWithSlash]
    · simp [getAssetPath, hp]
  · have hlast : basePath.getLast? ≠ some '/' := by
      simpa [endsWithSlash] using hb2
    have hne : basePath ≠ [] := by
      cases basePath with
      | nil => simp [startsWithSlash] at hb1
      | cons c cs => simp
    refine ⟨hclean, ?_, ?_, hlast, hhead⟩
    · cases basePath with
      | nil => simp at hne
      | cons c cs =>
        simp only [startsWithSlash, decide_eq_true_eq] at hb1
        simp [getAssetPath, hp, hb1, startsWithSlash]
    · simp [getAssetPath, hp, hne]

/-- C10 witness: concrete instance at `p = "media/x.mp4"`-style input and the
production base path, obtained from `getAssetPath_slash_normalization`. -/
theorem getAssetPath_slash_normalization_witness :
    getAssetPath ['/', 's'] ['a', 'b'] = getAssetPath ['/', 's'] ('/' :: ['a', 'b']) ∧
    startsWithSlash (getAssetPath ['/', 's'] ['a', 'b']) = true ∧
    getAssetPath ['/', 's'] ['a', 'b'] = ['/', 's'] ++ '/' :: ['a', 'b'] ∧
    (['/', 's'] : JStr).getLast? ≠ some '/' ∧ (['a', 'b'] : JStr).head? ≠ some '/' :=
  getAssetPath_slash_normalization ['/', 's'] ['a', 'b'] (by decide)
    (Or.inr ⟨by decide, by decide⟩)

/-- C1: for every positive viewport width and height, the orientation
decision used by `selectVideo` and `enableFallbackVideo` picks landscape iff
the aspect ratio is at least 1; a square viewport resolves to landscape. -/
theorem useLandscape_iff_ratio_ge_one (w h : ℚ) (hw : 0 < w) (hh : 0 < h) :
    (useLandscape w h = true ↔ 1 ≤ w / h) ∧ (w = h → useLandscape w h = true) := by
  have hne : w / h ≠ 0 := ne_of_gt (div_pos hw hh)
  constructor
  · simp [useLandscape, jsOr, hne]
  · intro he
    subst he
    have : w / w = 1 := div_self (ne_of_gt hw)
    simp [useLandscape, jsOr, this]

/-- C1 witness: the square viewport 2×2 resolves to landscape and the
equivalence holds there. -/
theorem useLandscape_iff_ratio_ge_one_witness :
    (useLandscape 2 2 = true ↔ 1 ≤ (2 : ℚ) / 2) ∧ ((2 : ℚ) = 2 → useLandscape 2 2 = true) :=
  useLandscape_iff_ratio_ge_one 2 2 (by norm_num) (by norm_num)

/-- C5: for every canvas size and positive video intrinsic size, the display
video size for the tiling uniforms is the intrinsic size multiplied by
`min ((W - 2·p·W)/vw) ((H - 2·p·H)/vh)` with `p = 0.05`: containment
computed after subtracting the padding symmetrically from the surface. -/
theorem displayVideoSize_padded_containment (W H vw vh : ℚ)
    (hw : 0 < vw) (hh : 0 < vh) :
    displayVideoSizeCalc W H vw vh =
      (vw * min ((W - 2 * 0.05 * W) / vw) ((H - 2 * 0.05 * H) / vh),
       vh * min ((W - 2 * 0.05 * W) / vw) ((H - 2 * 0.05 * H) / vh)) := by
  have hw0 : vw ≠ 0 := ne_of_gt hw
  have hh0 : vh ≠ 0 := ne_of_gt hh
  have e1 : W - W * 0.05 * 2 = W - 2 * 0.05 * W := by ring
  have e2 : H - H * 0.05 * 2 = H - 2 * 0.05 * H := by ring
  simp [displayVideoSizeCalc, jsOr, hw0, hh0, e1, e2]

/-- C5 witness: a 100×100 canvas with a 10×10 video. -/
theorem displayVideoSize_padded_containment_witness :
    displayVideoSizeCalc 100 100 10 10 =
      (10 * min (((100 : ℚ) - 2 * 0.05 * 100) / 10) (((100 : ℚ) - 2 * 0.05 * 100) / 10),
       10 * min (((100 : ℚ) - 2 * 0.05 * 100) / 10) (((100 : ℚ) - 2 * 0.05 * 100) / 10)) :=
  displayVideoSize_padded_containment 100 100 10 10 (by norm_num) (by norm_num)

/-- C6: on a handle that is already ready (`readyState ≥ 2` with known
intrinsic dimensions) the readiness gate resolves synchronously without
issuing a load instruction, leaves the handle unchanged, and invoking it
again resolves again with no additional load instruction. -/
theorem ensureVideoReady_idempotent_on_ready (c : Ctrl) (v : Video)
    (h1 : 2 ≤ v.readyState) (h2 : v.videoWidth ≠ 0) (h3 : v.videoHeight ≠ 0) :
    (ensureVideoReady c v).issuedLoad = false ∧
    (ensureVideoReady c v).resolvedNow = true ∧
    (ensureVideoReady c v).video = v ∧
    (ensureVideoReady (ensureVideoReady c v).ctrl (ensureVideoReady c v).video).issuedLoad
      = false ∧
    (ensureVideoReady (ensureVideoReady c v).ctrl (ensureVideoReady c v).video).resolvedNow
      = true := by
  simp [ensureVideoReady, h1, h2, h3]

/-- C6 witness: the gate applied twice to a concrete ready clip. -/
theorem ensureVideoReady_idempotent_on_ready_witness :
    (ensureVideoReady gateCtrl readyClip).issuedLoad = false ∧
    (ensureVideoReady gateCtrl readyClip).resolvedNow = true ∧
    (ensureVideoReady gateCtrl readyClip).video = readyClip ∧
    (ensureVideoReady (ensureVideoReady gateCtrl readyClip).ctrl
        (ensureVideoReady gateCtrl readyClip).video).issuedLoad = false ∧
    (ensureVideoReady (ensureVideoReady gateCtrl readyClip).ctrl
        (ensureVideoReady gateCtrl readyClip).video).resolvedNow = true :=
  ensureVideoReady_idempotent_on_ready gateCtrl readyClip (by decide) (by decide) (by decide)

/-- C2 counterexample: the claim quantifies over every format configuration
and promises the mandatory fallback unconditionally last — but with an empty
`h264` path and no optional codec supported, `setVideoSources` yields no
entry at all instead of exactly the fallback. -/
theorem setVideoSources_empty_mandatory_cex :
    setVideoSources [] ⟨false, false, true⟩ ⟨none, none, []⟩ = [] ∧
    (setVideoSources [] ⟨false, false, true⟩ ⟨none, none, []⟩).length ≠ 1 := by
  decide

/-- C2 (amended): for every capability record and format configuration whose
mandatory `h264` path is non-empty, an optional format is included iff the
probe reports support and the configuration supplies a (non-empty) path for
it, included formats come best-compression-first (AV1, then VP9), and the
H.264 fallback is last regardless of the capability record; with no optional
codec included the result is exactly the fallback, with all included it is
all three entries. -/
theorem setVideoSources_order_spec (bp : JStr) (sup : CodecSupport) (f : VideoFormats)
    (hf : f.h264 ≠ []) :
    ((sup.supportsAV1 && optTruthy f.av1) = false →
      (sup.supportsVP9 && optTruthy f.vp9) = false →
      setVideoSources bp sup f = [⟨getAssetPath bp f.h264, Mime.h264⟩]) ∧
    ((sup.supportsAV1 && optTruthy f.av1) = true →
      (sup.supportsVP9 && optTruthy f.vp9) = true →
      setVideoSources bp sup f =
        [⟨getAssetPath bp (f.av1.getD []), Mime.av1⟩,
         ⟨getAssetPath bp (f.vp9.getD []), Mime.vp9⟩,
         ⟨getAssetPath bp f.h264, Mime.h264⟩]) ∧
    ((∃ e ∈ setVideoSources bp sup f, e.type = Mime.av1) ↔
      (sup.supportsAV1 && optTruthy f.av1) = true) ∧
    ((∃ e ∈ setVideoSources bp sup f, e.type = Mime.vp9) ↔
      (sup.supportsVP9 && optTruthy f.vp9) = true) ∧
    (setVideoSources bp sup f).getLast? = some ⟨getAssetPath bp f.h264, Mime.h264⟩ := by
  unfold setVideoSources
  rw [if_pos hf]
  cases hA : sup.supportsAV1 && optTruthy f.av1 <;>
    cases hV : sup.supportsVP9 && optTruthy f.vp9 <;>
      simp

/-- C2 witness: the amended statement instantiated at a concrete
configuration with every optional codec supported and configured. -/
theorem setVideoSources_order_spec_witness :
    (((CodecSupport.mk true true true).supportsAV1 &&
        optTruthy (VideoFormats.mk (some ['a']) (some ['b']) ['c']).av1) = false →
      ((CodecSupport.mk true true true).supportsVP9 &&
        optTruthy (VideoFormats.mk (some ['a']) (some ['b']) ['c']).vp9) = false →
      setVideoSources [] ⟨true, true, true⟩ ⟨some ['a'], some ['b'], ['c']⟩ =
        [⟨getAssetPath [] ['c'], Mime.h264⟩]) ∧
    (((CodecSupport.mk true true true).supportsAV1 &&
        optTruthy (VideoFormats.mk (some ['a']) (some ['b']) ['c']).av1) = true →
      ((CodecSupport.mk true true true).supportsVP9 &&
        optTruthy (VideoFormats.mk (some ['a']) (some ['b']) ['c']).vp9) = true →
      setVideoSources [] ⟨true, true, true⟩ ⟨some ['a'], some ['b'], ['c']⟩ =
        [⟨getAssetPath [] ((VideoFormats.mk (some ['a']) (some ['b']) ['c']).av1.getD []),
            Mime.av1⟩,
         ⟨getAssetPath [] ((VideoFormats.mk (some ['a']) (some ['b']) ['c']).vp9.getD []),
            Mime.vp9⟩,
         ⟨getAssetPath [] ['c'], Mime.h264⟩]) ∧
    ((∃ e ∈ setVideoSources [] ⟨true, true, true⟩ ⟨some ['a'], some ['b'], ['c']⟩,
        e.type = Mime.av1) ↔
      ((CodecSupport.mk true true true).supportsAV1 &&
        optTruthy (VideoFormats.mk (some ['a']) (some ['b']) ['c']).av1) = true) ∧
    ((∃ e ∈ setVideoSources [] ⟨true, true, true⟩ ⟨some ['a'], some ['b'], ['c']⟩,
        e.type = Mime.vp9) ↔
      ((CodecSupport.mk true true true).supportsVP9 &&
        optTruthy (VideoFormats.mk (some ['a']) (some ['b']) ['c']).vp9) = true) ∧
    (setVideoSources [] ⟨true, true, true⟩ ⟨some ['a'], some ['b'], ['c']⟩).getLast?
      = some ⟨getAssetPath [] ['c'], Mime.h264⟩ :=
  setVideoSources_order_spec [] ⟨true, true, true⟩ ⟨some ['a'], some ['b'], ['c']⟩
    (by decide)

/-- C8 counterexample: an empty mandatory `h264` path is not surfaced as any
error — `setVideoSources` returns normally and silently omits the fallback
entry (no entry of H.264 type is produced). -/
theorem setVideoSources_empty_h264_cex :
    setVideoSources [] ⟨true, true, true⟩ ⟨some ['a'], some ['b'], []⟩ =
      [⟨['/', 'a'], Mime.av1⟩, ⟨['/', 'b'], Mime.vp9⟩] ∧
    ∀ e ∈ setVideoSources [] ⟨true, true, true⟩ ⟨some ['a'], some ['b'], []⟩,
      e.type ≠ Mime.h264 := by
  decide

/-- C8 (amended): a missing `h264` field is rejected only statically by the
TypeScript configuration type; an empty `h264` path is not surfaced as an
error at any point — the selector silently omits the fallback entry,
returning just the optional entries, and never invents a substitute. -/
theorem setVideoSources_empty_h264_silent_omit (bp : JStr) (sup : CodecSupport)
    (f : VideoFormats) (hf : f.h264 = []) :
    (∀ e ∈ setVideoSources bp sup f, e.type ≠ Mime.h264) ∧
    setVideoSources bp sup f =
      (if sup.supportsAV1 && optTruthy f.av1 then
        [⟨getAssetPath bp (f.av1.getD []), Mime.av1⟩] else []) ++
      (if sup.supportsVP9 && optTruthy f.vp9 then
        [⟨getAssetPath bp (f.vp9.getD []), Mime.vp9⟩] else []) := by
  unfold setVideoSources
  rw [hf]
  cases hA : sup.supportsAV1 && optTruthy f.av1 <;>
    cases hV : sup.supportsVP9 && optTruthy f.vp9 <;>
      simp

/-- C8 witness: concrete configuration with an empty mandatory path, VP9
supported and configured. -/
theorem setVideoSources_empty_h264_silent_omit_witness :
    (∀ e ∈ setVideoSources [] ⟨false, true, true⟩ ⟨none, some ['b'], []⟩,
      e.type ≠ Mime.h264) ∧
    setVideoSources [] ⟨false, true, true⟩ ⟨none, some ['b'], []⟩ =
      (if (CodecSupport.mk false true true).supportsAV1 &&
          optTruthy (VideoFormats.mk none (some ['b']) []).av1 then
        [⟨getAssetPath [] ((VideoFormats.mk none (some ['b']) []).av1.getD []), Mime.av1⟩]
       else []) ++
      (if (CodecSupport.mk false true true).supportsVP9 &&
          optTruthy (VideoFormats.mk none (some ['b']) []).vp9 then
        [⟨getAssetPath [] ((VideoFormats.mk none (some ['b']) []).vp9.getD []), Mime.vp9⟩]
       else []) :=
  setVideoSources_empty_h264_silent_omit [] ⟨false, true, true⟩ ⟨none, some ['b'], []⟩
    (by decide)

/-- C9: when the orientation decision selects a target element identical to
the already-active one, `selectVideo` returns synchronously with the entire
world unchanged — no pause, no preload change, no load, no play attempt, and
the controller state (active element, dirty flag, metadata flag, canvas
size) intact — and issues no GPU calls. -/
theorem selectVideo_skips_when_target_active (w : World) (t : Slot) (v : Video)
    (ht : (if w.env.useLandscapeNow then Slot.landscape else Slot.portrait) = t)
    (hv : w.videoAt t = some v)
    (ha : w.ctrl.activeVideo = some t) :
    selectVideoPhase1 w = .done w [] := by
  have hne : ¬ (w.landscape = none ∧ w.portrait = none) := by
    rintro ⟨h1, h2⟩
    cases t <;> simp [World.videoAt, h1, h2] at hv
  simp only [selectVideoPhase1]
  rw [if_neg hne, ht, hv, if_pos ha]

/-- C9 witness: a concrete world whose landscape element is active under a
landscape viewport. -/
theorem selectVideo_skips_when_target_active_witness :
    selectVideoPhase1 settledWorld = .done settledWorld [] :=
  selectVideo_skips_when_target_active settledWorld .landscape
    { readyClip with paused := false } (by with_unfolding_all rfl) rfl rfl

/-- The upload call never comes from the uniform update. -/
theorem texImage2D_not_mem_updateUniforms (w : World) :
    GLCall.texImage2D ∉ (updateUniforms w).2 := by
  unfold updateUniforms
  cases hbind : w.ctrl.activeVideo.bind w.videoAt with
  | none => simp
  | some v =>
    by_cases h : (w.ctrl.gl && w.ctrl.program && w.ctrl.uniformsLocated) = true <;>
      simp [h]

/-- C4 (amended): in every render-loop iteration with context, program and an
active media element bound, the frame is uploaded to the texture iff (the
dirty flag is set, or the media is advancing, or the metadata-loaded flag is
set with `readyState ≥ 2`) and the media's intrinsic dimensions are
positive. -/
theorem renderFrame_upload_iff (w : World) (s : Slot) (v : Video)
    (hgl : w.ctrl.gl = true) (hpr : w.ctrl.program = true)
    (hs : w.ctrl.activeVideo = some s) (hv : w.videoAt s = some v) :
    GLCall.texImage2D ∈ (renderFrameStep w).2 ↔
      ((w.ctrl.needsTextureUpload = true ∨ (v.paused = false ∧ v.ended = false) ∨
        (w.ctrl.videoMetadataLoaded = true ∧ 2 ≤ v.readyState)) ∧
       0 < v.videoWidth ∧ 0 < v.videoHeight) := by
  have hbind : w.ctrl.activeVideo.bind w.videoAt = some v := by
    rw [hs]; exact hv
  have huni := texImage2D_not_mem_updateUniforms
  simp only [renderFrameStep, hgl, hpr, hbind, Bool.and_self]
  by_cases hc : (w.ctrl.needsTextureUpload || videoHasNewFrame w.ctrl (some v)) = true
  · rw [if_pos hc]
    by_cases hd : 0 < v.videoWidth ∧ 0 < v.videoHeight
    · rw [if_pos hd]
      simp only [videoHasNewFrame, Bool.or_eq_true, Bool.and_eq_true,
        Bool.not_eq_true', decide_eq_true_eq] at hc
      simp only [List.mem_append, List.mem_cons, List.not_mem_nil]
      constructor
      · intro _; exact ⟨by tauto, hd⟩
      · intro _; simp
    · rw [if_neg hd]
      simp only [List.mem_append, List.mem_cons, List.not_mem_nil]
      constructor
      · rintro (h | h | h) <;> simp_all [huni w]
      · rintro ⟨_, hdim⟩; exact absurd hdim hd
  · rw [if_neg hc]
    simp only [Bool.or_eq_true, not_or, videoHasNewFrame, Bool.and_eq_true,
      Bool.not_eq_true', decide_eq_true_eq] at hc
    simp only [List.mem_append, List.mem_cons, List.not_mem_nil]
    constructor
    · rintro (h | h | h) <;> simp_all [huni w]
    · rintro ⟨hflag | hadv | hmeta, _⟩
      · exact absurd hflag (by simpa using hc.1)
      · exact absurd (by simp [hadv.1, hadv.2] : (!v.paused && !v.ended) = true)
          (by simpa using hc.2.1)
      · exact absurd (by simp [hmeta.1, hmeta.2] :
          (w.ctrl.videoMetadataLoaded && decide (2 ≤ v.readyState)) = true)
          (by simpa using hc.2.2)

/-- C4 counterexample: in `staticWorld` the active media is paused (not
advancing) and the dirty flag is clear, yet the render loop uploads the
frame (because metadata is loaded with `readyState ≥ 2`) — refuting the
claimed "if and only if the dirty flag is set or the media is advancing". -/
theorem renderFrame_uploads_when_static_cex :
    readyClip.paused = true ∧ readyClip.ended = false ∧
    staticWorld.ctrl.needsTextureUpload = false ∧
    staticWorld.ctrl.activeVideo = some Slot.landscape ∧
    staticWorld.videoAt Slot.landscape = some readyClip ∧
    GLCall.texImage2D ∈ (renderFrameStep staticWorld).2 := by
  refine ⟨rfl, rfl, rfl, rfl, rfl, ?_⟩
  have h : (renderFrameStep staticWorld).2 =
      [.useProgram, .clearColor, .clear, .activeTexture, .bindTexture, .texImage2D,
       .useProgram, .setUniforms (1920, 1080) (1728, 972),
       .bindBuffer, .vertexAttribPointer, .drawArrays] := by
    with_unfolding_all rfl
  rw [h]
  simp

/-- C4 witness: the amended equivalence evaluated at `staticWorld`. -/
theorem renderFrame_upload_iff_witness :
    GLCall.texImage2D ∈ (renderFrameStep staticWorld).2 ↔
      ((staticWorld.ctrl.needsTextureUpload = true ∨
        (readyClip.paused = false ∧ readyClip.ended = false) ∨
        (staticWorld.ctrl.videoMetadataLoaded = true ∧ 2 ≤ readyClip.readyState)) ∧
       0 < readyClip.videoWidth ∧ 0 < readyClip.videoHeight) :=
  renderFrame_upload_iff staticWorld .landscape readyClip rfl rfl rfl rfl

@[simp] theorem videoAt_landscape (w : World) : w.videoAt Slot.landscape = w.landscape := rfl

@[simp] theorem videoAt_portrait (w : World) : w.videoAt Slot.portrait = w.portrait := rfl

@[simp] theorem mapVideo_landscape_landscape (w : World) (f : Video → Video) :
    (w.mapVideo Slot.landscape f).landscape = w.landscape.map f := rfl

@[simp] theorem mapVideo_landscape_portrait (w : World) (f : Video → Video) :
    (w.mapVideo Slot.landscape f).portrait = w.portrait := rfl

@[simp] theorem mapVideo_portrait_portrait (w : World) (f : Video → Video) :
    (w.mapVideo Slot.portrait f).portrait = w.portrait.map f := rfl

@[simp] theorem mapVideo_portrait_landscape (w : World) (f : Video → Video) :
    (w.mapVideo Slot.portrait f).landscape = w.landscape := rfl

/-- The fallback presenter leaves the controller fields untouched. -/
theorem ctrl_enableFallbackVideo (w : World) : (enableFallbackVideo w).ctrl = w.ctrl := by
  unfold enableFallbackVideo
  cases w.env.useLandscapeNow <;> simp

/-- The fallback presenter leaves the environment untouched. -/
theorem env_enableFallbackVideo (w : World) : (enableFallbackVideo w).env = w.env := by
  unfold enableFallbackVideo
  cases w.env.useLandscapeNow <;> simp

/-- What the fallback presenter does to the two elements: the
orientation-matching one gains the fallback class and one play attempt; the
other one is paused with the fallback class removed. -/
theorem enableFallbackVideo_effect (w : World) (vl vp : Video)
    (hl : w.landscape = some vl) (hp : w.portrait = some vp) :
    ((enableFallbackVideo w).videoAt
        (if w.env.useLandscapeNow then Slot.landscape else Slot.portrait)).map
      Video.fallbackClass = some true ∧
    ((enableFallbackVideo w).videoAt
        (if w.env.useLandscapeNow then Slot.landscape else Slot.portrait)).map
      Video.playAttempts = some ((if w.env.useLandscapeNow then vl else vp).playAttempts + 1) ∧
    ((enableFallbackVideo w).videoAt
        (if w.env.useLandscapeNow then Slot.portrait else Slot.landscape)).map
      Video.paused = some true ∧
    ((enableFallbackVideo w).videoAt
        (if w.env.useLandscapeNow then Slot.portrait else Slot.landscape)).map
      Video.fallbackClass = some false := by
  cases hL : w.env.useLandscapeNow <;>
    simp [enableFallbackVideo, hL, hl, hp]

/-- In a context-less state the resize and orientation triggers issue no
GPU calls. -/
theorem handlers_silent_without_gl (w : World) (h : w.ctrl.gl = false) :
    (handleResizeStep w).2 = [] ∧ (handleOrientationStep w).2 = [] := by
  simp [handleResizeStep, handleOrientationStep, h]

/-- C7: whenever the rendering context could not be acquired (`gl` null) or
GL initialization fails (shader compile/link failure), initialization
completes synchronously in fallback mode: the context reference is null
afterwards, the element matching the current orientation gains the fallback
class and is play-attempted, the non-matching element is paused with the
fallback class removed, and the resize and orientation triggers issue no
GPU calls from the resulting state on. -/
theorem initController_fallback_on_failure (w : World) (vl vp : Video)
    (hl : w.landscape = some vl) (hp : w.portrait = some vp)
    (hfail : w.ctrl.gl = false ∨ w.env.glInitOk = false) :
    (initController w).isAwaitReady = false ∧
    (initController w).world.ctrl.gl = false ∧
    ((initController w).world.videoAt
        (if w.env.useLandscapeNow then Slot.landscape else Slot.portrait)).map
      Video.fallbackClass = some true ∧
    ((initController w).world.videoAt
        (if w.env.useLandscapeNow then Slot.landscape else Slot.portrait)).map
      Video.playAttempts = some ((if w.env.useLandscapeNow then vl else vp).playAttempts + 1) ∧
    ((initController w).world.videoAt
        (if w.env.useLandscapeNow then Slot.portrait else Slot.landscape)).map
      Video.paused = some true ∧
    ((initController w).world.videoAt
        (if w.env.useLandscapeNow then Slot.portrait else Slot.landscape)).map
      Video.fallbackClass = some false ∧
    (handleResizeStep (initController w).world).2 = [] ∧
    (handleOrientationStep (initController w).world).2 = [] := by
  by_cases hgl : w.ctrl.gl = false
  · -- context acquisition returned null
    have h1 : (attachEvents w).ctrl.gl = false := by simp [attachEvents, hgl]
    have hinit : initController w = .done (enableFallbackVideo (attachEvents w)) [] := by
      simp [initController, h1]
    have hl1 : (attachEvents w).landscape = some vl := by simpa [attachEvents] using hl
    have hp1 : (attachEvents w).portrait = some vp := by simpa [attachEvents] using hp
    have henv1 : (attachEvents w).env = w.env := by simp [attachEvents]
    have heff := enableFallbackVideo_effect (attachEvents w) vl vp hl1 hp1
    rw [henv1] at heff
    have hglf : (enableFallbackVideo (attachEvents w)).ctrl.gl = false := by
      rw [ctrl_enableFallbackVideo, h1]
    refine ⟨?_, ?_, ?_, ?_, ?_, ?_, ?_, ?_⟩
    · rw [hinit]; rfl
    · rw [hinit]; exact hglf
    · rw [hinit]; exact heff.1
    · rw [hinit]; exact heff.2.1
    · rw [hinit]; exact heff.2.2.1
    · rw [hinit]; exact heff.2.2.2
    · rw [hinit]; exact (handlers_silent_without_gl _ hglf).1
    · rw [hinit]; exact (handlers_silent_without_gl _ hglf).2
  · -- context present, GL initialization throws
    have hglt : w.ctrl.gl = true := by
      cases hcase : w.ctrl.gl with
      | false => exact absurd hcase hgl
      | true => rfl
    have hok : w.env.glInitOk = false := by
      rcases hfail with h | h
      · exact absurd h hgl
      · exact h
    have h1 : (attachEvents w).ctrl.gl = true := by simp [attachEvents, hglt]
    have h2 : (attachEvents w).env.glInitOk = false := by simp [attachEvents, hok]
    have hprog : initGLPhase1 (attachEvents w) = none := by
      simp [initGLPhase1, createProgram, h1, h2]
    have hinit : initController w =
        .done (enableFallbackVideo
          { (disposeGLOp (attachEvents w)).1 with
            ctrl := { (disposeGLOp (attachEvents w)).1.ctrl with gl := false } })
          (disposeGLOp (attachEvents w)).2 := by
      simp [initController, h1, hprog]
    have hl2 : ({ (disposeGLOp (attachEvents w)).1 with
        ctrl := { (disposeGLOp (attachEvents w)).1.ctrl with gl := false } } : World).landscape
        = some vl := by
      simpa [disposeGLOp, attachEvents, hglt] using hl
    have hp2 : ({ (disposeGLOp (attachEvents w)).1 with
        ctrl := { (disposeGLOp (attachEvents w)).1.ctrl with gl := false } } : World).portrait
        = some vp := by
      simpa [disposeGLOp, attachEvents, hglt] using hp
    have henv2 : ({ (disposeGLOp (attachEvents w)).1 with
        ctrl := { (disposeGLOp (attachEvents w)).1.ctrl with gl := false } } : World).env
        = w.env := by
      simp [disposeGLOp, attachEvents, hglt]
    have heff := enableFallbackVideo_effect _ vl vp hl2 hp2
    rw [henv2] at heff
    have hglf : (enableFallbackVideo
        { (disposeGLOp (attachEvents w)).1 with
          ctrl := { (disposeGLOp (attachEvents w)).1.ctrl with gl := false } }).ctrl.gl
        = false := by
      rw [ctrl_enableFallbackVideo]
    refine ⟨?_, ?_, ?_, ?_, ?_, ?_, ?_, ?_⟩
    · rw [hinit]; rfl
    · rw [hinit]; exact hglf
    · rw [hinit]; exact heff.1
    · rw [hinit]; exact heff.2.1
    · rw [hinit]; exact heff.2.2.1
    · rw [hinit]; exact heff.2.2.2
    · rw [hinit]; exact (handlers_silent_without_gl _ hglf).1
    · rw [hinit]; exact (handlers_silent_without_gl _ hglf).2

/-- C7 witness: a concrete world whose context acquisition returned null. -/
theorem initController_fallback_on_failure_witness :
    (initController noGLWorld).isAwaitReady = false ∧
    (initController noGLWorld).world.ctrl.gl = false ∧
    ((initController noGLWorld).world.videoAt
        (if noGLWorld.env.useLandscapeNow then Slot.landscape else Slot.portrait)).map
      Video.fallbackClass = some true ∧
    ((initController noGLWorld).world.videoAt
        (if noGLWorld.env.useLandscapeNow then Slot.landscape else Slot.portrait)).map
      Video.playAttempts = some
        ((if noGLWorld.env.useLandscapeNow then unreadyVideo
          else { unreadyVideo with paused := false }).playAttempts + 1) ∧
    ((initController noGLWorld).world.videoAt
        (if noGLWorld.env.useLandscapeNow then Slot.portrait else Slot.landscape)).map
      Video.paused = some true ∧
    ((initController noGLWorld).world.videoAt
        (if noGLWorld.env.useLandscapeNow then Slot.portrait else Slot.landscape)).map
      Video.fallbackClass = some false ∧
    (handleResizeStep (initController noGLWorld).world).2 = [] ∧
    (handleOrientationStep (initController noGLWorld).world).2 = [] :=
  initController_fallback_on_failure noGLWorld unreadyVideo
    { unreadyVideo with paused := false } rfl rfl (Or.inl rfl)

/-- C3 (code bug): disposing while initialization is suspended awaiting the
first video's readiness leaves no pending callback at the moment `dispose`
returns — but once the load completes, the resumed initialization reaches
`renderFrame`, which has no disposed guard and schedules a fresh
animation-frame callback, so a pending scheduled callback exists after
dispose returned. -/
theorem dispose_midInit_schedules_callback :
    (initController mountWorld).isAwaitReady = true ∧
    (dispose (initController mountWorld).world).1.ctrl.animationHandle = none ∧
    (dispose (initController mountWorld).world).1.env.pendingRaf = [] ∧
    (initResumeAfterReady
        ((dispose (initController mountWorld).world).1.mapVideo Slot.landscape
          deliverMetadata)
        Slot.landscape).1.env.pendingRaf = [0] := by
  refine ⟨?_, ?_, ?_, ?_⟩ <;> with_unfolding_all rfl

end SaintWorks
